import Mathlib

/-!
Verification development for the grpc-go keepalive subsystem.

The source tree (src/keepalive/keepalive.go) declares only the three
tunable parameter structures: ClientParameters, ServerParameters and
EnforcementPolicy, together with documented defaults and minimum-value
clamps. The runtime machinery that consumes them (the client and server
keepalive drivers, the server enforcement policy engine and the
connection activity tracker) is described by the design document but is
not part of the source tree; those definitions are therefore modelled
from the spec and each carries a doc comment saying so.

Durations are modelled as natural numbers counting milliseconds, the
granularity needed by the documented floors (one second, ten seconds).
-/

namespace Keepalive

/-- One second in milliseconds: the server-side floor for Time. -/
def oneSecond : Nat := 1000

/-- Ten seconds in milliseconds: the client-side floor for Time. -/
def tenSeconds : Nat := 10000

/-- Twenty seconds: the documented default of both Timeout fields. -/
def twentySeconds : Nat := 20000

/-- Five minutes: the documented default of EnforcementPolicy.MinTime. -/
def fiveMinutes : Nat := 300000

/-- One hour in milliseconds. -/
def oneHour : Nat := 3600000

/-- Two hours: the documented default of ServerParameters.Time. -/
def twoHours : Nat := 7200000

/-- ClientParameters from src/keepalive/keepalive.go: client-side
keepalive configuration (Time, Timeout, PermitWithoutStream). -/
structure ClientParameters where
  Time : Nat
  Timeout : Nat
  PermitWithoutStream : Bool
deriving DecidableEq, Repr

/-- ServerParameters from src/keepalive/keepalive.go: server-side
keepalive and max-age configuration. -/
structure ServerParameters where
  MaxConnectionIdle : Nat
  MaxConnectionAge : Nat
  MaxConnectionAgeGrace : Nat
  Time : Nat
  Timeout : Nat
deriving DecidableEq, Repr

/-- EnforcementPolicy from src/keepalive/keepalive.go: server-side policy
against abusive client pings. -/
structure EnforcementPolicy where
  MinTime : Nat
  PermitWithoutStream : Bool
deriving DecidableEq, Repr

/-- An effective duration after defaulting: a field whose documented
default is infinity and whose configured value is the zero value becomes
a disabled, never-firing timer. -/
inductive EffDuration
  | finite (d : Nat)
  | infinite
deriving DecidableEq, Repr

/-- Modelled from the spec: defaulting of a duration field whose
documented default is infinity (an infinite duration means the
corresponding timer is disabled and never fires). -/
def effDefault (t : Nat) : EffDuration :=
  if t = 0 then .infinite else .finite t

/-- Modelled from the spec: the error taxonomy of the error handling
design. Every reason below is the reason attached to a connection
close. -/
inductive CloseReason
  | livenessTimeout
  | policyViolation
  | maxAgeGraceExpired
  | idleExpired
deriving DecidableEq, Repr

/-- Classification of an error reason: local to one connection, or fatal
to the whole process. -/
inductive ErrorClass
  | connectionLocal
  | fatalProcess
deriving DecidableEq, Repr

/-- Modelled from the spec: all close reasons are local to the
connection; none propagate to other connections or crash the process. -/
def CloseReason.errorClass : CloseReason → ErrorClass
  | .livenessTimeout => .connectionLocal
  | .policyViolation => .connectionLocal
  | .maxAgeGraceExpired => .connectionLocal
  | .idleExpired => .connectionLocal

/-- Modelled from the spec: the effective client configuration held by a
client keepalive driver, produced once at construction and immutable
afterwards. -/
structure ClientConfig where
  time : EffDuration
  timeout : EffDuration
  permitWithoutStream : Bool
deriving DecidableEq, Repr

/-- Modelled from the spec: client setup. An unset (zero) Time defaults
to infinity; a set Time is clamped up to the ten second floor, once,
here at construction. An unset Timeout defaults to twenty seconds. -/
def clientSetup (p : ClientParameters) : ClientConfig :=
  { time := if p.Time = 0 then .infinite else .finite (max p.Time tenSeconds)
    timeout := .finite (if p.Timeout = 0 then twentySeconds else p.Timeout)
    permitWithoutStream := p.PermitWithoutStream }

/-- Arm a one-shot timer at the given instant: an infinite duration
leaves the timer disabled. -/
def armDeadline (now : Nat) : EffDuration → Option Nat
  | .infinite => none
  | .finite d => some (now + d)

/-- Modelled from the spec: the keepalive driver state machine states. -/
inductive DriverState
  | Idle
  | ProbeOutstanding
  | Closing
deriving DecidableEq, Repr

/-- Events driving the client keepalive driver: the inactivity timer
firing, the probe watchdog firing, any inbound activity (a data frame or
a ping ack), and external connection closure. -/
inductive ClientEvent
  | inactivityFire
  | watchdogFire
  | activity
  | connClosed
deriving DecidableEq, Repr

/-- Transport actions the client driver can request. -/
inductive ClientAct
  | sendPing
  | closeConn (r : CloseReason)
deriving DecidableEq, Repr

/-- Modelled from the spec: the client driver state: the state-machine
state plus the pending fire instants of the two timers. -/
structure ClientDriverState where
  st : DriverState
  inactivityDeadline : Option Nat
  watchdogDeadline : Option Nat
deriving DecidableEq, Repr

/-- Modelled from the spec: the client driver starts Idle with the
inactivity timer armed for the effective (clamped) Time. -/
def clientInit (cfg : ClientConfig) (t0 : Nat) : ClientDriverState :=
  { st := .Idle
    inactivityDeadline := armDeadline t0 cfg.time
    watchdogDeadline := none }

/-- Modelled from the spec: one transition of the client keepalive driver.
On inactivity-timer fire in Idle: if permitWithoutStream is false and the
active stream count is zero, re-arm the inactivity timer and remain Idle
without probing; otherwise send a ping, arm the Timeout watchdog and move
to ProbeOutstanding. In ProbeOutstanding, inbound activity cancels the
watchdog, re-arms the inactivity timer and returns to Idle; the watchdog
firing closes the connection with the liveness-timeout reason. External
closure stops all timers and is terminal. -/
def clientStep (cfg : ClientConfig) (activeStreams : Nat) (now : Nat)
    (s : ClientDriverState) (e : ClientEvent) :
    ClientDriverState × List ClientAct :=
  match e with
  | .connClosed =>
      ({ st := .Closing, inactivityDeadline := none, watchdogDeadline := none }, [])
  | .inactivityFire =>
      match s.st with
      | .Idle =>
          if !cfg.permitWithoutStream && activeStreams == 0 then
            ({ s with inactivityDeadline := armDeadline now cfg.time }, [])
          else
            ({ st := .ProbeOutstanding
               inactivityDeadline := none
               watchdogDeadline := armDeadline now cfg.timeout }, [.sendPing])
      | _ => (s, [])
  | .watchdogFire =>
      match s.st with
      | .ProbeOutstanding =>
          ({ st := .Closing, inactivityDeadline := none, watchdogDeadline := none },
           [.closeConn .livenessTimeout])
      | _ => (s, [])
  | .activity =>
      match s.st with
      | .ProbeOutstanding =>
          ({ st := .Idle
             inactivityDeadline := armDeadline now cfg.time
             watchdogDeadline := none }, [])
      | .Idle =>
          ({ s with inactivityDeadline := armDeadline now cfg.time }, [])
      | .Closing => (s, [])

/-- Modelled from the spec: the effective server configuration held by a
server keepalive driver, produced once at connection setup. -/
structure ServerConfig where
  maxConnectionIdle : EffDuration
  maxConnectionAge : EffDuration
  maxConnectionAgeGrace : EffDuration
  time : EffDuration
  timeout : EffDuration
deriving DecidableEq, Repr

/-- Modelled from the spec: the jittered max-age. A uniform random jitter
of up to ten percent is added or subtracted; the randomness is drawn from
a seed, so the result ranges over [age - age / 10, age + age / 10]. -/
def jitteredMaxAge (age : Nat) (seed : Nat) : Nat :=
  age - age / 10 + seed % (2 * (age / 10) + 1)

/-- Modelled from the spec: server setup. The idle, age and grace fields
default to infinity when unset; MaxConnectionAge receives its jitter here,
once. Time defaults to two hours when unset and is otherwise clamped up
to the one second floor; Timeout defaults to twenty seconds. -/
def serverSetup (p : ServerParameters) (seed : Nat) : ServerConfig :=
  { maxConnectionIdle := effDefault p.MaxConnectionIdle
    maxConnectionAge :=
      match effDefault p.MaxConnectionAge with
      | .infinite => .infinite
      | .finite a => .finite (jitteredMaxAge a seed)
    maxConnectionAgeGrace := effDefault p.MaxConnectionAgeGrace
    time := .finite (if p.Time = 0 then twoHours else max p.Time oneSecond)
    timeout := .finite (if p.Timeout = 0 then twentySeconds else p.Timeout) }

/-- Reasons carried by a graceful-shutdown GoAway signal. -/
inductive GoAwayReason
  | maxAge
  | idle
  | pingStrikes
deriving DecidableEq, Repr

/-- Events driving the server driver timers. -/
inductive ServerEvent
  | ageTimerFire
  | graceTimerFire
  | idleTimerFire
deriving DecidableEq, Repr

/-- Transport actions the server driver can request. -/
inductive ServerAct
  | sendGoAway (r : GoAwayReason)
  | forceClose (r : CloseReason)
deriving DecidableEq, Repr

/-- Modelled from the spec: the per-connection server driver state. The
effective configuration is fixed at setup; the age and grace deadlines
are the pending fire instants of those timers. -/
structure ServerConnState where
  config : ServerConfig
  ageDeadline : Option Nat
  graceDeadline : Option Nat
  goAwayMaxAgeSent : Bool
  connClosed : Bool
deriving DecidableEq, Repr

/-- Modelled from the spec: server driver state at connection setup: the
jittered age timer is armed; no GoAway sent yet; grace timer idle. -/
def serverConnInit (p : ServerParameters) (seed t0 : Nat) : ServerConnState :=
  { config := serverSetup p seed
    ageDeadline := armDeadline t0 (serverSetup p seed).maxConnectionAge
    graceDeadline := none
    goAwayMaxAgeSent := false
    connClosed := false }

/-- Modelled from the spec: the age, grace and idle timers of the server
driver. Age firing unconditionally sends a GoAway (at most once for that
reason) and arms the grace timer; grace firing force-closes the
connection regardless of in-flight streams; idle firing sends a GoAway
only if the active stream count is still zero. -/
def serverStep (activeStreams : Nat) (now : Nat) (s : ServerConnState)
    (e : ServerEvent) : ServerConnState × List ServerAct :=
  match e with
  | .ageTimerFire =>
      ({ s with ageDeadline := none
                goAwayMaxAgeSent := true
                graceDeadline := armDeadline now s.config.maxConnectionAgeGrace },
       if s.goAwayMaxAgeSent then [] else [.sendGoAway .maxAge])
  | .graceTimerFire =>
      ({ s with graceDeadline := none, connClosed := true },
       [.forceClose .maxAgeGraceExpired])
  | .idleTimerFire =>
      if activeStreams == 0 then (s, [.sendGoAway .idle]) else (s, [])

/-- Modelled from the spec: the effective enforcement configuration. -/
structure EnforceConfig where
  minTime : Nat
  permitWithoutStream : Bool
deriving DecidableEq, Repr

/-- Modelled from the spec: MinTime defaults to five minutes when unset;
its zero value means use the default, never a zero-length interval. -/
def effectiveMinTime (pol : EnforcementPolicy) : Nat :=
  if pol.MinTime = 0 then fiveMinutes else pol.MinTime

/-- Modelled from the spec: enforcement engine setup from the declared
EnforcementPolicy. -/
def enforceSetup (pol : EnforcementPolicy) : EnforceConfig :=
  { minTime := effectiveMinTime pol
    permitWithoutStream := pol.PermitWithoutStream }

/-- Modelled from the spec: the internal strike threshold. A single
marginal violation is tolerated; repeated violations are rejected. The
documented default threshold is two strikes. -/
def maxStrikes : Nat := 2

/-- Modelled from the spec: the enforcement engine state: the timestamp
of the most recently tolerated ping and the current strike count. -/
structure EnforceState where
  lastToleratedPing : Nat
  strikes : Nat
deriving DecidableEq, Repr

/-- The verdict of the enforcement engine on one inbound ping. -/
inductive PingVerdict
  | tolerated
  | strikeRecorded
  | goAwayClose (r : CloseReason)
deriving DecidableEq, Repr

/-- Modelled from the spec: the enforcement engine decision on an inbound
client ping. With no active streams and permitWithoutStream false the
ping is rejected outright. A ping arriving sooner than minTime after the
last tolerated ping earns a strike, and the connection is closed with a
policy violation only once the strike count exceeds the threshold.
Otherwise the ping is tolerated: its timestamp becomes the new last
tolerated instant and the strike count resets. -/
def enforcePing (cfg : EnforceConfig) (activeStreams : Nat) (now : Nat)
    (s : EnforceState) : EnforceState × PingVerdict :=
  if activeStreams == 0 && !cfg.permitWithoutStream then
    (s, .goAwayClose .policyViolation)
  else if now - s.lastToleratedPing < cfg.minTime then
    if s.strikes + 1 > maxStrikes then
      ({ s with strikes := s.strikes + 1 }, .goAwayClose .policyViolation)
    else
      ({ s with strikes := s.strikes + 1 }, .strikeRecorded)
  else
    ({ lastToleratedPing := now, strikes := 0 }, .tolerated)

/-- Modelled from the spec: the connection activity tracker counters. The
active stream count is an integer so that the never-below-zero invariant
is a real statement rather than a vacuous one. -/
structure TrackerState where
  lastActivityTime : Nat
  activeStreamCount : Int
  outstandingPingCount : Nat
deriving DecidableEq, Repr

/-- Violations of the programming contract between the tracker and its
collaborators; reported loudly, never swallowed. -/
inductive InvariantViolation
  | negativeStreamCount
deriving DecidableEq, Repr

/-- Modelled from the spec: tracker state at connection establishment. -/
def trackerInit (t0 : Nat) : TrackerState :=
  { lastActivityTime := t0, activeStreamCount := 0, outstandingPingCount := 0 }

/-- Modelled from the spec: record any inbound frame as activity. -/
def recordActivity (now : Nat) (s : TrackerState) : TrackerState :=
  { s with lastActivityTime := now }

/-- Modelled from the spec: a stream opened; the count grows by one. -/
def streamOpened (s : TrackerState) : TrackerState :=
  { s with activeStreamCount := s.activeStreamCount + 1 }

/-- Modelled from the spec: a stream closed. The count never goes below
zero: a decrement past zero is reported as an invariant violation, not
silently clamped to zero and not swallowed. -/
def streamClosed (s : TrackerState) : Except InvariantViolation TrackerState :=
  if s.activeStreamCount ≤ 0 then .error .negativeStreamCount
  else .ok { s with activeStreamCount := s.activeStreamCount - 1 }

/-- A stream lifecycle event fed to the tracker. -/
inductive StreamOp
  | opened
  | closed
deriving DecidableEq, Repr

/-- Apply one stream lifecycle event to the tracker. -/
def applyStreamOp (s : TrackerState) : StreamOp → Except InvariantViolation TrackerState
  | .opened => .ok (streamOpened s)
  | .closed => streamClosed s

/-- Apply a sequence of stream lifecycle events, stopping at the first
reported violation. -/
def applyStreamOps : List StreamOp → TrackerState → Except InvariantViolation TrackerState
  | [], s => .ok s
  | op :: ops, s =>
      match applyStreamOp s op with
      | .error e => .error e
      | .ok s2 => applyStreamOps ops s2

/-- The jittered max-age never falls below ninety percent of the
configured age. -/
theorem jitteredMaxAge_lower (age seed : Nat) :
    age - age / 10 ≤ jitteredMaxAge age seed := by
  unfold jitteredMaxAge
  omega

/-- The jittered max-age never exceeds one hundred ten percent of the
configured age. -/
theorem jitteredMaxAge_upper (age seed : Nat) :
    jitteredMaxAge age seed ≤ age + age / 10 := by
  have hmod : seed % (2 * (age / 10) + 1) < 2 * (age / 10) + 1 :=
    Nat.mod_lt seed (Nat.succ_pos _)
  have hdiv : age / 10 ≤ age := Nat.div_le_self age 10
  unfold jitteredMaxAge
  omega

/-- Claim C1: a configured client Time below the ten second floor yields
an effective interval equal to the floor, and likewise a configured
server Time below the one second floor; the driver re-arms its timer
with the clamped setup value, so the clamp happens once at construction
and the raw configured value is never used on a timer fire. -/
theorem claim1_floor_clamp_at_setup :
    (∀ p : ClientParameters, 0 < p.Time → p.Time < tenSeconds →
      (clientSetup p).time = .finite tenSeconds) ∧
    (∀ (p : ServerParameters) (seed : Nat), 0 < p.Time → p.Time < oneSecond →
      (serverSetup p seed).time = .finite oneSecond) ∧
    (∀ (p : ClientParameters) (now : Nat) (s : ClientDriverState),
      0 < p.Time → p.Time < tenSeconds → s.st = .Idle →
      (clientSetup p).permitWithoutStream = false →
      ((clientStep (clientSetup p) 0 now s .inactivityFire).1).inactivityDeadline
        = some (now + tenSeconds)) := by
  refine ⟨?_, ?_, ?_⟩
  · intro p h1 h2
    have hne : p.Time ≠ 0 := by omega
    have hmax : max p.Time tenSeconds = tenSeconds := Nat.max_eq_right (Nat.le_of_lt h2)
    simp [clientSetup, hne, hmax]
  · intro p seed h1 h2
    have hne : p.Time ≠ 0 := by omega
    have hmax : max p.Time oneSecond = oneSecond := Nat.max_eq_right (Nat.le_of_lt h2)
    simp [serverSetup, hne, hmax]
  · intro p now s h1 h2 hst hperm
    obtain ⟨st, i, w⟩ := s
    simp only [ClientDriverState.st] at hst
    subst hst
    have hne : p.Time ≠ 0 := by omega
    have hmax : max p.Time tenSeconds = tenSeconds := Nat.max_eq_right (Nat.le_of_lt h2)
    have hperm2 : p.PermitWithoutStream = false := by
      simpa [clientSetup] using hperm
    simp [clientStep, clientSetup, hne, hmax, hperm2, armDeadline]

/-- Concrete instance of claim C1: a 5 second client Time and a 500
millisecond server Time are both clamped to their floors, and the
re-armed client deadline uses the floor. -/
theorem claim1_floor_clamp_at_setup_witness :
    (clientSetup ⟨5000, 0, false⟩).time = .finite tenSeconds ∧
    (serverSetup ⟨0, 0, 0, 500, 0⟩ 0).time = .finite oneSecond ∧
    ((clientStep (clientSetup ⟨5000, 0, false⟩) 0 0
        ⟨.Idle, some 10000, none⟩ .inactivityFire).1).inactivityDeadline
      = some (0 + tenSeconds) :=
  ⟨claim1_floor_clamp_at_setup.1 ⟨5000, 0, false⟩ (by decide) (by decide),
   claim1_floor_clamp_at_setup.2.1 ⟨0, 0, 0, 500, 0⟩ 0 (by decide) (by decide),
   claim1_floor_clamp_at_setup.2.2 ⟨5000, 0, false⟩ 0 ⟨.Idle, some 10000, none⟩
     (by decide) (by decide) rfl rfl⟩

/-- Claim C2: on an inbound client ping the enforcement engine rejects
outright when there is no active stream and permitWithoutStream is
false; a ping sooner than minTime after the last tolerated ping earns a
strike, with a close verdict exactly when the strike count exceeds the
threshold, a single marginal violation being tolerated; any other ping
is tolerated, its timestamp recorded as the new last tolerated instant
and the strike counter reset. -/
theorem claim2_enforcement_decision (cfg : EnforceConfig) (streams now : Nat)
    (s : EnforceState) :
    (streams = 0 ∧ cfg.permitWithoutStream = false →
      enforcePing cfg streams now s = (s, .goAwayClose .policyViolation)) ∧
    (¬(streams = 0 ∧ cfg.permitWithoutStream = false) →
      now - s.lastToleratedPing < cfg.minTime →
      (enforcePing cfg streams now s).1.strikes = s.strikes + 1 ∧
      (enforcePing cfg streams now s).1.lastToleratedPing = s.lastToleratedPing ∧
      ((enforcePing cfg streams now s).2 = .goAwayClose .policyViolation ↔
        maxStrikes < s.strikes + 1) ∧
      (s.strikes = 0 → (enforcePing cfg streams now s).2 = .strikeRecorded)) ∧
    (¬(streams = 0 ∧ cfg.permitWithoutStream = false) →
      cfg.minTime ≤ now - s.lastToleratedPing →
      enforcePing cfg streams now s = (⟨now, 0⟩, .tolerated)) := by
  have hb : (streams == 0 && !cfg.permitWithoutStream) = true ↔
      (streams = 0 ∧ cfg.permitWithoutStream = false) := by
    simp [Bool.and_eq_true]
  refine ⟨?_, ?_, ?_⟩
  · intro h
    unfold enforcePing
    rw [if_pos (hb.mpr h)]
  · intro hn hlt
    have hbf : ¬((streams == 0 && !cfg.permitWithoutStream) = true) := fun hh => hn (hb.mp hh)
    unfold enforcePing
    rw [if_neg hbf, if_pos hlt]
    by_cases hc : maxStrikes < s.strikes + 1
    · rw [if_pos hc]
      refine ⟨rfl, rfl, by simp [hc], ?_⟩
      intro h0
      exfalso
      simp [maxStrikes] at hc
      omega
    · rw [if_neg hc]
      exact ⟨rfl, rfl, by simp [hc], fun _ => rfl⟩
  · intro hn hge
    have hbf : ¬((streams == 0 && !cfg.permitWithoutStream) = true) := fun hh => hn (hb.mp hh)
    have hnl : ¬(now - s.lastToleratedPing < cfg.minTime) := by omega
    unfold enforcePing
    rw [if_neg hbf, if_neg hnl]

/-- Concrete instance of claim C2: with minTime five minutes, a second
ping one second after a tolerated one earns a strike without closing,
and a ping after the interval is tolerated with the timestamp updated
and the strike counter reset. -/
theorem claim2_enforcement_decision_witness :
    (enforcePing ⟨fiveMinutes, false⟩ 1 1000 ⟨0, 0⟩).1.strikes
      = (⟨0, 0⟩ : EnforceState).strikes + 1 ∧
    (enforcePing ⟨fiveMinutes, false⟩ 1 1000 ⟨0, 0⟩).2 = .strikeRecorded ∧
    enforcePing ⟨fiveMinutes, false⟩ 1 400000 ⟨0, 0⟩ = (⟨400000, 0⟩, .tolerated) :=
  ⟨((claim2_enforcement_decision ⟨fiveMinutes, false⟩ 1 1000 ⟨0, 0⟩).2.1
      (by decide) (by decide)).1,
   ((claim2_enforcement_decision ⟨fiveMinutes, false⟩ 1 1000 ⟨0, 0⟩).2.1
      (by decide) (by decide)).2.2.2 rfl,
   (claim2_enforcement_decision ⟨fiveMinutes, false⟩ 1 400000 ⟨0, 0⟩).2.2
      (by decide) (by decide)⟩

/-- Claim C3: with permitWithoutStream false and a zero active-stream
count, no step of the client driver ever emits a ping, whatever the
event and however long the connection has been inactive; on an
inactivity-timer fire in Idle the driver re-arms the timer and remains
Idle. -/
theorem claim3_no_ping_without_streams (cfg : ClientConfig) (now : Nat)
    (s : ClientDriverState) (e : ClientEvent)
    (hperm : cfg.permitWithoutStream = false) :
    ClientAct.sendPing ∉ (clientStep cfg 0 now s e).2 ∧
    (s.st = .Idle → e = .inactivityFire →
      (clientStep cfg 0 now s e).1.st = .Idle ∧
      (clientStep cfg 0 now s e).1.inactivityDeadline = armDeadline now cfg.time) := by
  obtain ⟨st, i, w⟩ := s
  cases e <;> cases st <;> simp [clientStep, hperm]

/-- Concrete instance of claim C3: at zero streams a driver forbidden to
ping without streams skips the probe on an inactivity fire. -/
theorem claim3_no_ping_without_streams_witness :
    ClientAct.sendPing ∉
      (clientStep ⟨.finite tenSeconds, .finite twentySeconds, false⟩ 0 50000
        ⟨.Idle, some 50000, none⟩ .inactivityFire).2 ∧
    (clientStep ⟨.finite tenSeconds, .finite twentySeconds, false⟩ 0 50000
        ⟨.Idle, some 50000, none⟩ .inactivityFire).1.st = .Idle :=
  ⟨(claim3_no_ping_without_streams ⟨.finite tenSeconds, .finite twentySeconds, false⟩
      50000 ⟨.Idle, some 50000, none⟩ .inactivityFire rfl).1,
   ((claim3_no_ping_without_streams ⟨.finite tenSeconds, .finite twentySeconds, false⟩
      50000 ⟨.Idle, some 50000, none⟩ .inactivityFire rfl).2 rfl rfl).1⟩

/-- Claim C4: a client configured with Time five seconds (clamped to ten
seconds), Timeout twenty seconds and PermitWithoutStream true sends a
ping when the inactivity timer fires at ten seconds, arms the watchdog
for twenty more seconds, and on watchdog fire with no activity closes
the connection with the liveness-timeout reason, which is a
connection-local reason and not a fatal process error. -/
theorem claim4_liveness_timeout_scenario :
    (clientSetup ⟨5000, 20000, true⟩).time = .finite tenSeconds ∧
    clientInit (clientSetup ⟨5000, 20000, true⟩) 0 = ⟨.Idle, some 10000, none⟩ ∧
    clientStep (clientSetup ⟨5000, 20000, true⟩) 0 10000
        ⟨.Idle, some 10000, none⟩ .inactivityFire
      = (⟨.ProbeOutstanding, none, some 30000⟩, [.sendPing]) ∧
    clientStep (clientSetup ⟨5000, 20000, true⟩) 0 30000
        ⟨.ProbeOutstanding, none, some 30000⟩ .watchdogFire
      = (⟨.Closing, none, none⟩, [.closeConn .livenessTimeout]) ∧
    CloseReason.errorClass .livenessTimeout = .connectionLocal := by
  decide

/-- Claim C5: the effective max-age computed at server setup is the
jittered value, which lies within plus or minus ten percent of the
configured value; the configuration it is stored in is never changed by
any later driver step, so every subsequent read returns the same
value. -/
theorem claim5_jitter_bounds_fixed_once :
    (∀ (p : ServerParameters) (seed : Nat), p.MaxConnectionAge ≠ 0 →
      (serverSetup p seed).maxConnectionAge
        = .finite (jitteredMaxAge p.MaxConnectionAge seed) ∧
      p.MaxConnectionAge - p.MaxConnectionAge / 10
        ≤ jitteredMaxAge p.MaxConnectionAge seed ∧
      jitteredMaxAge p.MaxConnectionAge seed
        ≤ p.MaxConnectionAge + p.MaxConnectionAge / 10) ∧
    (∀ (streams now : Nat) (s : ServerConnState) (e : ServerEvent),
      ((serverStep streams now s e).1).config = s.config) := by
  refine ⟨?_, ?_⟩
  · intro p seed h
    refine ⟨?_, jitteredMaxAge_lower _ _, jitteredMaxAge_upper _ _⟩
    simp [serverSetup, effDefault, h]
  · intro streams now s e
    cases e
    · rfl
    · rfl
    · simp only [serverStep]
      split <;> rfl

/-- Concrete instance of claim C5: the one hour age with seed seven is
stored jittered and within bounds, and an age-timer step preserves the
stored configuration. -/
theorem claim5_jitter_bounds_fixed_once_witness :
    ((serverSetup ⟨0, oneHour, 0, 0, 0⟩ 7).maxConnectionAge
        = .finite (jitteredMaxAge oneHour 7) ∧
      oneHour - oneHour / 10 ≤ jitteredMaxAge oneHour 7 ∧
      jitteredMaxAge oneHour 7 ≤ oneHour + oneHour / 10) ∧
    ((serverStep 3 5 (serverConnInit ⟨0, oneHour, 0, 0, 0⟩ 7 0) .ageTimerFire).1).config
      = (serverConnInit ⟨0, oneHour, 0, 0, 0⟩ 7 0).config :=
  ⟨claim5_jitter_bounds_fixed_once.1 ⟨0, oneHour, 0, 0, 0⟩ 7 (by decide),
   claim5_jitter_bounds_fixed_once.2 3 5 (serverConnInit ⟨0, oneHour, 0, 0, 0⟩ 7 0)
     .ageTimerFire⟩

/-- Claim C6: with MaxConnectionAge one hour and grace five minutes, the
age deadline is the jittered hour, within six minutes either side of one
hour; the age timer firing sends the max-age GoAway and arms the grace
timer five minutes later; the grace timer firing force-closes the
connection whatever the active stream count. -/
theorem claim6_max_age_grace_scenario (seed n : Nat) :
    oneHour - 360000 ≤ jitteredMaxAge oneHour seed ∧
    jitteredMaxAge oneHour seed ≤ oneHour + 360000 ∧
    (serverConnInit ⟨0, oneHour, fiveMinutes, 0, 0⟩ seed 0).ageDeadline
      = some (jitteredMaxAge oneHour seed) ∧
    (serverStep n (jitteredMaxAge oneHour seed)
        (serverConnInit ⟨0, oneHour, fiveMinutes, 0, 0⟩ seed 0) .ageTimerFire).2
      = [.sendGoAway .maxAge] ∧
    ((serverStep n (jitteredMaxAge oneHour seed)
        (serverConnInit ⟨0, oneHour, fiveMinutes, 0, 0⟩ seed 0) .ageTimerFire).1).graceDeadline
      = some (jitteredMaxAge oneHour seed + fiveMinutes) ∧
    (serverStep n (jitteredMaxAge oneHour seed + fiveMinutes)
        ((serverStep n (jitteredMaxAge oneHour seed)
            (serverConnInit ⟨0, oneHour, fiveMinutes, 0, 0⟩ seed 0) .ageTimerFire).1)
        .graceTimerFire).2
      = [.forceClose .maxAgeGraceExpired] ∧
    ((serverStep n (jitteredMaxAge oneHour seed + fiveMinutes)
        ((serverStep n (jitteredMaxAge oneHour seed)
            (serverConnInit ⟨0, oneHour, fiveMinutes, 0, 0⟩ seed 0) .ageTimerFire).1)
        .graceTimerFire).1).connClosed = true := by
  have h10 : oneHour / 10 = 360000 := by decide
  have hl := jitteredMaxAge_lower oneHour seed
  have hu := jitteredMaxAge_upper oneHour seed
  rw [h10] at hl hu
  refine ⟨hl, hu, ?_, ?_, ?_, ?_, ?_⟩ <;>
    simp [serverConnInit, serverSetup, serverStep, effDefault, armDeadline,
      oneHour, fiveMinutes]

/-- Concrete instance of claim C6 at seed seven with three streams still
open when the grace timer fires. -/
theorem claim6_max_age_grace_scenario_witness :
    oneHour - 360000 ≤ jitteredMaxAge oneHour 7 ∧
    (serverStep 3 (jitteredMaxAge oneHour 7 + fiveMinutes)
        ((serverStep 3 (jitteredMaxAge oneHour 7)
            (serverConnInit ⟨0, oneHour, fiveMinutes, 0, 0⟩ 7 0) .ageTimerFire).1)
        .graceTimerFire).2
      = [.forceClose .maxAgeGraceExpired] :=
  ⟨(claim6_max_age_grace_scenario 7 3).1,
   (claim6_max_age_grace_scenario 7 3).2.2.2.2.2.1⟩

/-- Claim C7: a client driver in ProbeOutstanding receiving any inbound
activity before its watchdog fires returns to Idle with the watchdog
cancelled and the inactivity timer re-armed, emitting no action at all,
in particular no connection close. -/
theorem claim7_activity_cancels_watchdog (cfg : ClientConfig) (streams now : Nat)
    (s : ClientDriverState) (h : s.st = .ProbeOutstanding) :
    clientStep cfg streams now s .activity
      = (⟨.Idle, armDeadline now cfg.time, none⟩, []) := by
  obtain ⟨st, i, w⟩ := s
  simp only [ClientDriverState.st] at h
  subst h
  rfl

/-- Concrete instance of claim C7: activity at half a second cancels a
watchdog pending for six hundred milliseconds. -/
theorem claim7_activity_cancels_watchdog_witness :
    clientStep ⟨.finite tenSeconds, .finite twentySeconds, true⟩ 1 500
        ⟨.ProbeOutstanding, none, some 600⟩ .activity
      = (⟨.Idle, armDeadline 500
            (⟨.finite tenSeconds, .finite twentySeconds, true⟩ : ClientConfig).time,
          none⟩, []) :=
  claim7_activity_cancels_watchdog ⟨.finite tenSeconds, .finite twentySeconds, true⟩
    1 500 ⟨.ProbeOutstanding, none, some 600⟩ rfl

/-- Claim C8: an unset MinTime is treated as the five minute default by
the enforcement engine, never as a zero-length interval. -/
theorem claim8_min_time_default (pol : EnforcementPolicy) (h : pol.MinTime = 0) :
    effectiveMinTime pol = fiveMinutes ∧
    (enforceSetup pol).minTime = fiveMinutes ∧
    effectiveMinTime pol ≠ 0 := by
  refine ⟨?_, ?_, ?_⟩ <;> simp [effectiveMinTime, enforceSetup, h, fiveMinutes]

/-- Concrete instance of claim C8 on the zero-valued policy. -/
theorem claim8_min_time_default_witness :
    effectiveMinTime ⟨0, false⟩ = fiveMinutes ∧
    (enforceSetup ⟨0, false⟩).minTime = fiveMinutes ∧
    effectiveMinTime ⟨0, false⟩ ≠ 0 :=
  claim8_min_time_default ⟨0, false⟩ rfl

/-- Every successful run of stream lifecycle events from a nonnegative
count ends with a nonnegative count. -/
theorem applyStreamOps_nonneg (ops : List StreamOp) :
    ∀ s s2 : TrackerState, 0 ≤ s.activeStreamCount →
      applyStreamOps ops s = .ok s2 → 0 ≤ s2.activeStreamCount := by
  induction ops with
  | nil =>
      intro s s2 h he
      simp [applyStreamOps] at he
      rw [← he]
      exact h
  | cons op ops ih =>
      intro s s2 h he
      cases op with
      | opened =>
          simp [applyStreamOps, applyStreamOp] at he
          refine ih _ s2 ?_ he
          simp [streamOpened]
          omega
      | closed =>
          by_cases hc : s.activeStreamCount ≤ 0
          · simp [applyStreamOps, applyStreamOp, streamClosed, hc] at he
          · simp [applyStreamOps, applyStreamOp, streamClosed, hc] at he
            refine ih _ s2 ?_ he
            simp
            omega

/-- Claim C9: the activity tracker keeps the active stream count
nonnegative: any succeeding sequence of opened and closed events
preserves nonnegativity, a close at count zero is reported as the
negative-stream-count invariant violation rather than clamped or
swallowed, and a close that succeeds never produces a negative count. -/
theorem claim9_stream_count_never_negative :
    (∀ (ops : List StreamOp) (s s2 : TrackerState), 0 ≤ s.activeStreamCount →
      applyStreamOps ops s = .ok s2 → 0 ≤ s2.activeStreamCount) ∧
    (∀ s : TrackerState, s.activeStreamCount = 0 →
      streamClosed s = .error .negativeStreamCount) ∧
    (∀ s s2 : TrackerState, streamClosed s = .ok s2 →
      0 ≤ s2.activeStreamCount) := by
  refine ⟨applyStreamOps_nonneg, ?_, ?_⟩
  · intro s h
    simp [streamClosed, h]
  · intro s s2 he
    by_cases hc : s.activeStreamCount ≤ 0
    · simp [streamClosed, hc] at he
    · simp [streamClosed, hc] at he
      rw [← he]
      simp
      omega

/-- Concrete instance of claim C9: opening one stream keeps the count at
one, and closing on the fresh tracker is reported as a violation. -/
theorem claim9_stream_count_never_negative_witness :
    0 ≤ (⟨0, 1, 0⟩ : TrackerState).activeStreamCount ∧
    streamClosed (trackerInit 0) = .error .negativeStreamCount :=
  ⟨claim9_stream_count_never_negative.1 [.opened] (trackerInit 0) ⟨0, 1, 0⟩
      (by decide) rfl,
   claim9_stream_count_never_negative.2.1 (trackerInit 0) rfl⟩

/-- Claim C10: not every unset duration is disabled: an all-zero client
configuration still has a finite twenty second watchdog Timeout while
its Time is infinite, and an all-zero server configuration runs a finite
two hour ping interval with a finite twenty second timeout, while its
idle and age limits stay infinite. -/
theorem claim10_finite_probe_defaults (seed : Nat) :
    (clientSetup ⟨0, 0, false⟩).timeout = .finite twentySeconds ∧
    (clientSetup ⟨0, 0, false⟩).time = .infinite ∧
    (serverSetup ⟨0, 0, 0, 0, 0⟩ seed).time = .finite twoHours ∧
    (serverSetup ⟨0, 0, 0, 0, 0⟩ seed).timeout = .finite twentySeconds ∧
    (serverSetup ⟨0, 0, 0, 0, 0⟩ seed).maxConnectionIdle = .infinite ∧
    (serverSetup ⟨0, 0, 0, 0, 0⟩ seed).maxConnectionAge = .infinite :=
  ⟨rfl, rfl, rfl, rfl, rfl, rfl⟩

/-- Concrete instance of claim C10 at seed zero. -/
theorem claim10_finite_probe_defaults_witness :
    (serverSetup ⟨0, 0, 0, 0, 0⟩ 0).time = .finite twoHours ∧
    (clientSetup ⟨0, 0, false⟩).timeout = .finite twentySeconds :=
  ⟨(claim10_finite_probe_defaults 0).2.2.1, (claim10_finite_probe_defaults 0).1⟩

end Keepalive
